import Mathlib

/-!
Verification of the `ui-bolt` repository's single source file,
`src/tailwind.config.js`, a declarative Tailwind configuration descriptor.
The default-exported JavaScript object literal is embedded as a JSON-like
value tree (`JsValue`), written field-for-field from the source.
-/

namespace UiBolt

/-- A JSON-like value: strings, arrays, and objects with ordered string keys.
This is the shape of the JavaScript object literal in the source. -/
inductive JsValue where
  | str : String → JsValue
  | arr : List JsValue → JsValue
  | obj : List (String × JsValue) → JsValue

/-- The key list of an object value (empty for non-objects). -/
def JsValue.keys : JsValue → List String
  | .obj fields => fields.map Prod.fst
  | _ => []

/-- Look up a key in an object value (first match; `none` for non-objects). -/
def JsValue.lookup (v : JsValue) (k : String) : Option JsValue :=
  match v with
  | .obj fields => (fields.find? (fun p => p.fst == k)).map Prod.snd
  | _ => none

/-- The `theme.extend.colors` mapping of `src/tailwind.config.js`
(lines 6-10), as token-name/value pairs in source order. -/
def colorsFields : List (String × String) :=
  [("primary", "#FF5D2B"), ("secondary", "#FF5D2B"), ("background", "#171717")]

/-- The `theme.extend.boxShadow` mapping of `src/tailwind.config.js`
(lines 11-13). -/
def boxShadowFields : List (String × String) :=
  [("glow", "0 0 15px rgba(255, 93, 43, 0.3)")]

/-- The `theme.extend.animation` mapping of `src/tailwind.config.js`
(lines 14-16). -/
def animationFields : List (String × String) :=
  [("pulse-slow", "pulse 3s cubic-bezier(0.4, 0, 0.6, 1) infinite")]

/-- The `content` array of `src/tailwind.config.js` (line 3), in source
order. -/
def contentGlobs : List String :=
  ["./index.html", "./src/**/*.\x7bjs,ts,jsx,tsx\x7d"]

/-- The default-exported configuration descriptor of
`src/tailwind.config.js` (lines 2-20), embedded field-for-field. -/
def tailwindConfig : JsValue :=
  .obj
    [ ("content", .arr (contentGlobs.map .str)),
      ("theme", .obj
        [ ("extend", .obj
            [ ("colors", .obj (colorsFields.map (fun p => (p.fst, .str p.snd)))),
              ("boxShadow", .obj (boxShadowFields.map (fun p => (p.fst, .str p.snd)))),
              ("animation", .obj (animationFields.map (fun p => (p.fst, .str p.snd)))) ]) ]),
      ("plugins", .arr []) ]

/-- The `theme.extend` object, reached from the descriptor by key lookup. -/
def extendObj : Option JsValue :=
  (tailwindConfig.lookup "theme").bind (fun t => t.lookup "extend")

/-- The `theme.extend.colors` object, reached by key lookup. -/
def colorsObj : Option JsValue :=
  extendObj.bind (fun e => e.lookup "colors")

/-- The `theme.extend.boxShadow` object, reached by key lookup. -/
def boxShadowObj : Option JsValue :=
  extendObj.bind (fun e => e.lookup "boxShadow")

/-- The `theme.extend.animation` object, reached by key lookup. -/
def animationObj : Option JsValue :=
  extendObj.bind (fun e => e.lookup "animation")

/-- Key list of an optional object, empty when absent. -/
def keysOf (o : Option JsValue) : List String :=
  (o.map JsValue.keys).getD []

/-- Modelled from the spec: the hex-color pattern `#` followed by exactly
six hexadecimal digits (spec section 8: `^#[0-9A-Fa-f]\x7b6\x7d$`). The
repository has no validation code, so the pattern is taken verbatim from
the spec's words. -/
def isHexColor6 (s : String) : Bool :=
  s.length == 7 && s.front == '#' &&
    ((s.drop 1).data.all (fun c =>
      c.isDigit || (charA ≤ c && c ≤ charF) || (charLa ≤ c && c ≤ charLf)))
where
  charA : Char := 'A'
  charF : Char := 'F'
  charLa : Char := 'a'
  charLf : Char := 'f'

/-- The opening-brace character of glob brace alternation. -/
def openBrace : Char := Char.ofNat 123

/-- The closing-brace character of glob brace alternation. -/
def closeBrace : Char := Char.ofNat 125

/-- Brace balance check over a character list, with the current nesting
depth: every closing brace matches an earlier opening brace and all opened
braces are closed. -/
def bracesBalancedAux : List Char → Nat → Bool
  | [], 0 => true
  | [], _ + 1 => false
  | c :: cs, d =>
    if c = openBrace then bracesBalancedAux cs (d + 1)
    else if c = closeBrace then
      match d with
      | 0 => false
      | d' + 1 => bracesBalancedAux cs d'
    else bracesBalancedAux cs d

/-- Modelled from the spec: a syntactically valid glob pattern (spec
section 8, "each a syntactically valid glob pattern"). The repository has
no glob code, so validity is rendered as the syntactic conditions a glob
grammar imposes on its surface string: the pattern is non-empty and its
brace alternations are balanced. -/
def isValidGlob (s : String) : Bool :=
  !s.isEmpty && bracesBalancedAux s.data 0

/-- The keyframe name referenced by a CSS `animation` shorthand string:
its first whitespace-delimited token. -/
def firstToken (s : String) : String :=
  String.mk (s.data.takeWhile (fun c => c ≠ ' '))

/-- The keyframe name referenced by the descriptor's sole animation
token, when that token exists and is a string. -/
def referencedKeyframeName : Option String :=
  (animationObj.bind (fun a => a.lookup "pulse-slow")).bind
    (fun v => match v with | .str s => some (firstToken s) | _ => none)

/-- Reading the default export: every read yields the same literal value.
The source defines the descriptor once and never mutates it. -/
def readDescriptor : Unit → JsValue := fun _ => tailwindConfig

end UiBolt

namespace UiBolt

/-- C1: in the descriptor's `theme.extend.boxShadow` mapping, the key
`glow` maps exactly to the string `0 0 15px rgba(255, 93, 43, 0.3)`, and
`glow` is the only key of that mapping. -/
theorem boxShadow_glow_exact :
    boxShadowObj =
      some (JsValue.obj [("glow", JsValue.str "0 0 15px rgba(255, 93, 43, 0.3)")]) ∧
    keysOf boxShadowObj = ["glow"] := by
  constructor <;> rfl

/-- C2: the descriptor's `content` field is exactly the two-element
sequence `./index.html`, `./src/**/*.\x7bjs,ts,jsx,tsx\x7d`, in that
order. -/
theorem content_exact :
    tailwindConfig.lookup "content" =
      some (JsValue.arr
        [JsValue.str "./index.html", JsValue.str "./src/**/*.\x7bjs,ts,jsx,tsx\x7d"]) := by
  rfl

/-- C3: the descriptor's `theme.extend.colors` mapping has exactly the
three keys `primary`, `secondary`, `background`, mapping respectively to
`#FF5D2B`, `#FF5D2B`, `#171717`. -/
theorem colors_exact :
    colorsObj =
      some (JsValue.obj
        [("primary", JsValue.str "#FF5D2B"),
         ("secondary", JsValue.str "#FF5D2B"),
         ("background", JsValue.str "#171717")]) ∧
    keysOf colorsObj = ["primary", "secondary", "background"] := by
  constructor <;> rfl

/-- C4: the descriptor's `theme.extend.animation` mapping maps
`pulse-slow` exactly to `pulse 3s cubic-bezier(0.4, 0, 0.6, 1) infinite`,
and `pulse-slow` is its only key. -/
theorem animation_exact :
    animationObj =
      some (JsValue.obj
        [("pulse-slow",
          JsValue.str "pulse 3s cubic-bezier(0.4, 0, 0.6, 1) infinite")]) ∧
    keysOf animationObj = ["pulse-slow"] := by
  constructor <;> rfl

/-- C5: the descriptor's `plugins` field is the empty sequence. -/
theorem plugins_empty :
    tailwindConfig.lookup "plugins" = some (JsValue.arr []) := by
  rfl

/-- C6: every key of the descriptor's `theme.extend.colors` mapping maps
to a string matching the six-digit hexadecimal CSS color pattern. -/
theorem colors_values_hex :
    colorsObj = some (JsValue.obj (colorsFields.map (fun p => (p.fst, JsValue.str p.snd)))) ∧
    colorsFields.all (fun p => isHexColor6 p.snd) = true := by
  exact ⟨rfl, by decide⟩

/-- C7: the descriptor's `content` field is a non-empty sequence whose
elements are all syntactically valid glob patterns. -/
theorem content_globs_valid :
    tailwindConfig.lookup "content" = some (JsValue.arr (contentGlobs.map JsValue.str)) ∧
    contentGlobs ≠ [] ∧
    contentGlobs.all isValidGlob = true := by
  exact ⟨rfl, by decide, by decide⟩

/-- C8: in every token category of the descriptor's theme extensions
(`colors`, `boxShadow`, `animation`), the token names are pairwise
distinct. -/
theorem category_keys_nodup :
    (keysOf colorsObj).Nodup ∧
    (keysOf boxShadowObj).Nodup ∧
    (keysOf animationObj).Nodup := by
  refine ⟨?_, ?_, ?_⟩ <;> decide

/-- C9: reading the descriptor is deterministic and mutation-free: any
two reads of the default-exported value yield structurally identical
records. The embedding is a pure literal, matching the source, which
defines the object once and performs no operation on it afterwards. -/
theorem read_deterministic :
    ∀ u v : Unit, readDescriptor u = readDescriptor v := by
  intro u v
  rfl

/-- C10: the descriptor's `theme` mapping has exactly the one key
`extend`; the domain of `theme.extend` is exactly `colors`, `boxShadow`,
`animation`; no `keyframes` category is defined; and the animation value
references the keyframe name `pulse`, which is not defined anywhere in
the descriptor. -/
theorem theme_shape :
    (tailwindConfig.lookup "theme").map JsValue.keys = some ["extend"] ∧
    (extendObj.map JsValue.keys) = some ["colors", "boxShadow", "animation"] ∧
    extendObj.bind (fun e => e.lookup "keyframes") = none ∧
    referencedKeyframeName = some "pulse" := by
  refine ⟨rfl, rfl, rfl, rfl⟩

end UiBolt
